import Mathlib

/-!
Verification development for the crowd-anki diff viewer core.

The definitions below are a shallow embedding of the Python sources:

* src/src/change_classifier.py  (change classifier),
* src/src/template_engine.py    (template rendering engine),
* src/src/html_generator.py     (renderer dispatch),
* src/src/renderers/*.py        (the four card renderers),
* src/src/models.py             (data records used by the above).

Text is modelled as Lean strings; scanners work on the underlying
character lists.  The Python code calls into three library facilities
that are modelled by executable scanners with the same semantics on the
inputs this development evaluates them on:

* BeautifulSoup(text, "html.parser").get_text() with the default
  convert_charrefs behaviour: tags are skipped, character references
  (named references from the table below and numeric references) are
  decoded, everything else passes through unchanged;
* html.unescape: character-reference decoding only;
* the re module: every regular expression appearing in the sources is a
  concrete pattern, and each use is translated into a dedicated scanner
  that follows the leftmost-match / backtracking semantics of that
  concrete pattern, as documented at each definition.

Recursive scanners that can skip more than one character per step take a
fuel argument; every step consumes at least one input character, so fuel
equal to the input length makes the wrapper total and the definitions
reduce by evaluation.
-/

namespace CrowdAnkiDiff

/-- Python whitespace for unicode strings: the character class matched by
the regex \s and stripped by str.strip (tab through carriage return, the
file/group/record/unit separators, space, next line, no-break space, and
the unicode space separators). -/
def isPyWs (c : Char) : Bool :=
  let n := c.toNat
  decide (n = 9) || decide (n = 10) || decide (n = 11) || decide (n = 12) ||
  decide (n = 13) || (decide (28 ≤ n) && decide (n ≤ 31)) || decide (n = 32) ||
  decide (n = 133) || decide (n = 160) || decide (n = 5760) ||
  (decide (8192 ≤ n) && decide (n ≤ 8202)) || decide (n = 8232) ||
  decide (n = 8233) || decide (n = 8239) || decide (n = 8287) || decide (n = 12288)

/-- Python str.lower restricted to the Basic Latin and Latin-1 ranges
(the only ranges exercised here): uppercase ASCII and the uppercase
Latin-1 letters move down by 32, everything else is unchanged. -/
def pyLower (c : Char) : Char :=
  let n := c.toNat
  if decide (65 ≤ n) && decide (n ≤ 90) then Char.ofNat (n + 32)
  else if decide (192 ≤ n) && decide (n ≤ 222) && decide (n ≠ 215) then Char.ofNat (n + 32)
  else c

/-- ASCII letter, the class [a-zA-Z] used by the entity regex. -/
def isAsciiLetter (c : Char) : Bool :=
  let n := c.toNat
  (decide (65 ≤ n) && decide (n ≤ 90)) || (decide (97 ≤ n) && decide (n ≤ 122))

/-- Python word character \w restricted to Basic Latin and Latin-1:
ASCII letters and digits, underscore, and the Latin-1 letters (the
multiplication and division signs excluded). -/
def isPyWord (c : Char) : Bool :=
  let n := c.toNat
  c.isAlpha || c.isDigit || decide (c = '_') ||
  (decide (192 ≤ n) && decide (n ≤ 255) && decide (n ≠ 215) && decide (n ≠ 247))

/-- re.sub(r's+', ' ', text) with the whitespace class: every maximal
run of whitespace characters becomes a single space. -/
def collapseWs : List Char → List Char
  | [] => []
  | [c] => if isPyWs c then [' '] else [c]
  | c :: c2 :: rest =>
    if isPyWs c && isPyWs c2 then collapseWs (c2 :: rest)
    else (if isPyWs c then ' ' else c) :: collapseWs (c2 :: rest)

/-- str.strip(): drop leading and trailing whitespace. -/
def stripWs (l : List Char) : List Char :=
  ((l.dropWhile isPyWs).reverse.dropWhile isPyWs).reverse

/-- re.sub(r's+', '', text) with the whitespace class: delete every
whitespace character. -/
def removeWs (l : List Char) : List Char :=
  l.filter (fun c => !isPyWs c)

/-- The named character references recognised by this model (a subset of
the HTML5 table sufficient for the entities the sources name). -/
def entityTable : List (List Char × Char) :=
  [(("nbsp").data, Char.ofNat 160), (("ensp").data, Char.ofNat 8194),
   (("emsp").data, Char.ofNat 8195), (("thinsp").data, Char.ofNat 8201),
   (("eacute").data, Char.ofNat 233), (("amp").data, Char.ofNat 38),
   (("lt").data, Char.ofNat 60), (("gt").data, Char.ofNat 62),
   (("quot").data, Char.ofNat 34)]

/-- Digit list to number. -/
def digitsToNat (ds : List Char) : Nat :=
  ds.foldl (fun acc c => acc * 10 + (c.toNat - 48)) 0

/-- Parse one character reference immediately after an ampersand:
a known named reference "name;" or a decimal numeric reference "#digits;".
Returns the decoded character and the rest of the input; anything else is
not a reference and the ampersand stays literal text. -/
def parseEntityRef (l : List Char) : Option (Char × List Char) :=
  match l with
  | '#' :: rest =>
    let ds := rest.takeWhile Char.isDigit
    if ds.isEmpty then none
    else
      match rest.drop ds.length with
      | ';' :: r3 => some (Char.ofNat (digitsToNat ds), r3)
      | _ => none
  | _ =>
    let nm := l.takeWhile isAsciiLetter
    if nm.isEmpty then none
    else
      match l.drop nm.length with
      | ';' :: r3 =>
        match entityTable.find? (fun p => p.1 == nm) with
        | some p => some (p.2, r3)
        | none => none
      | _ => none

/-- BeautifulSoup(text, "html.parser").get_text(): markup between < and >
is skipped (an unterminated tag consumes the rest of the input), character
references are decoded, all other characters are visible text. -/
def getTextAux : Nat → List Char → List Char
  | 0, _ => []
  | _, [] => []
  | fuel + 1, c :: rest =>
    if c = '<' then
      match rest.dropWhile (fun d => decide (d ≠ '>')) with
      | [] => []
      | _ :: r2 => getTextAux fuel r2
    else if c = '&' then
      match parseEntityRef rest with
      | some (e, r2) => e :: getTextAux fuel r2
      | none => c :: getTextAux fuel rest
    else c :: getTextAux fuel rest

/-- get_text on a string. -/
def get_text (s : String) : List Char :=
  getTextAux s.data.length s.data

/-- html.unescape: decode character references, leave everything else
(including markup) untouched. -/
def unescapeAux : Nat → List Char → List Char
  | 0, _ => []
  | _, [] => []
  | fuel + 1, c :: rest =>
    if c = '&' then
      match parseEntityRef rest with
      | some (e, r2) => e :: unescapeAux fuel r2
      | none => c :: unescapeAux fuel rest
    else c :: unescapeAux fuel rest

/-- html.unescape on a character list. -/
def py_unescape (l : List Char) : List Char :=
  unescapeAux l.length l

/-- ChangeClassifier._normalize_for_comparison on a character list:
get_text, unescape, collapse whitespace runs, strip, lowercase. -/
def normalizeL (l : List Char) : List Char :=
  (stripWs (collapseWs (py_unescape (getTextAux l.length l)))).map pyLower

/-- ChangeClassifier._normalize_for_comparison. -/
def normalize_for_comparison (s : String) : List Char :=
  normalizeL s.data

/-- ChangeClassifier.WHITESPACE_ENTITIES.  The source keeps these in a
Python set and iterates it when deleting them; set iteration order is
implementation defined, and this model fixes the order of the set
display in the source. -/
def whitespaceEntities : List (List Char) :=
  [("&nbsp;").data, ("&ensp;").data, ("&emsp;").data, ("&thinsp;").data,
   ("&#160;").data, ("&#8194;").data, ("&#8195;").data, ("&#8201;").data]

/-- str.replace(pat, repl): non-overlapping left-to-right replacement,
the replacement text is not rescanned. -/
def replaceAllAux (pat repl : List Char) : Nat → List Char → List Char
  | 0, l => l
  | _ + 1, [] => []
  | fuel + 1, c :: rest =>
    if !pat.isEmpty && pat.isPrefixOf (c :: rest) then
      repl ++ replaceAllAux pat repl fuel ((c :: rest).drop pat.length)
    else c :: replaceAllAux pat repl fuel rest

/-- str.replace(pat, repl) on full input. -/
def replaceAll (pat repl l : List Char) : List Char :=
  replaceAllAux pat repl l.length l

/-- The stripped form compared by _is_whitespace_change: all whitespace
characters deleted, then every whitespace-only entity deleted. -/
def strip_ws_and_entities (s : String) : List Char :=
  whitespaceEntities.foldl (fun acc e => replaceAll e [] acc) (removeWs s.data)

/-- ChangeClassifier._is_whitespace_change. -/
def is_whitespace_change (before after : String) : Bool :=
  decide (strip_ws_and_entities before = strip_ws_and_entities after)

/-- re.findall(r'&[a-zA-Z]+;|&#d+;', s): every raw entity token, named
tokens preferred at each ampersand, scan resuming after each match or one
character after a failed ampersand. -/
def findEntitiesAux : Nat → List Char → List (List Char)
  | 0, _ => []
  | _ + 1, [] => []
  | fuel + 1, c :: rest =>
    if c = '&' then
      match rest with
      | '#' :: r2 =>
        let ds := r2.takeWhile Char.isDigit
        if !ds.isEmpty then
          match r2.drop ds.length with
          | ';' :: r3 => (('&' :: '#' :: ds) ++ [';']) :: findEntitiesAux fuel r3
          | _ => findEntitiesAux fuel rest
        else findEntitiesAux fuel rest
      | _ =>
        let nm := rest.takeWhile isAsciiLetter
        if !nm.isEmpty then
          match rest.drop nm.length with
          | ';' :: r3 => (('&' :: nm) ++ [';']) :: findEntitiesAux fuel r3
          | _ => findEntitiesAux fuel rest
        else findEntitiesAux fuel rest
    else findEntitiesAux fuel rest

/-- The entity tokens of a string. -/
def find_entities (s : String) : List (List Char) :=
  findEntitiesAux s.data.length s.data

/-- Equality of the token lists viewed as Python sets. -/
def setEqB (xs ys : List (List Char)) : Bool :=
  xs.all (fun x => ys.contains x) && ys.all (fun y => xs.contains y)

/-- ChangeClassifier._is_entity_change: the raw entity-token sets differ
and decoding plus normalizing both sides agrees. -/
def is_entity_change (before after : String) : Bool :=
  if setEqB (find_entities before) (find_entities after) then false
  else decide (normalizeL (py_unescape before.data) = normalizeL (py_unescape after.data))

/-- Tag-stripped, whitespace-collapsed, stripped text used by the html
formatting and case detectors. -/
def tag_stripped_text (s : String) : List Char :=
  stripWs (collapseWs (get_text s))

/-- ChangeClassifier._is_html_formatting_change: tag-stripped texts equal
while the raw strings differ. -/
def is_html_formatting_change (before after : String) : Bool :=
  decide (tag_stripped_text before = tag_stripped_text after) && decide (before ≠ after)

/-- ChangeClassifier._is_case_change: tag-stripped texts equal ignoring
case but not equal case-sensitively. -/
def is_case_change (before after : String) : Bool :=
  decide ((tag_stripped_text before).map pyLower = (tag_stripped_text after).map pyLower) &&
  decide (tag_stripped_text before ≠ tag_stripped_text after)

/-- The tag-stripped text with every character that is neither a word
character nor whitespace removed, then whitespace-collapsed and stripped
(re.sub(r'[^ws]', '', get_text) plus normalization). -/
def no_punct_text (s : String) : List Char :=
  stripWs (collapseWs ((get_text s).filter (fun c => isPyWord c || isPyWs c)))

/-- ChangeClassifier._is_punctuation_change: punctuation-free texts equal
ignoring case while the tag-stripped texts differ. -/
def is_punctuation_change (before after : String) : Bool :=
  decide ((no_punct_text before).map pyLower = (no_punct_text after).map pyLower) &&
  decide (get_text before ≠ get_text after)

/-- ChangeType.CONTENT. -/
def CONTENT : String := "content"

/-- ChangeType.WHITESPACE. -/
def WHITESPACE : String := "whitespace"

/-- ChangeType.HTML_FORMATTING. -/
def HTML_FORMATTING : String := "html_formatting"

/-- ChangeType.ENTITIES. -/
def ENTITIES : String := "entities"

/-- ChangeType.CASE. -/
def CASE : String := "case"

/-- ChangeType.PUNCTUATION. -/
def PUNCTUATION : String := "punctuation"

/-- ChangeType.MIXED_COSMETIC. -/
def MIXED_COSMETIC : String := "mixed_cosmetic"

/-- The ordered appends of the four detectors after whitespace
(lines 124-138 of change_classifier.py). -/
def collect_cosmetic (e h c p : Bool) : List String :=
  (if e then [ENTITIES] else []) ++ (if h then [HTML_FORMATTING] else []) ++
  (if c then [CASE] else []) ++ (if p then [PUNCTUATION] else [])

/-- The conservative default of lines 140-142: an empty detector list
becomes html_formatting. -/
def with_fallback (changes : List String) : List String :=
  if changes.isEmpty then [HTML_FORMATTING] else changes

/-- ChangeClassifier._detect_cosmetic_changes: the whitespace detector
short-circuits everything; otherwise the four remaining detectors are
collected in order, with html_formatting appended when nothing matched. -/
def detect_cosmetic_changes (before after : String) : List String :=
  if is_whitespace_change before after then [WHITESPACE]
  else
    with_fallback (collect_cosmetic (is_entity_change before after)
      (is_html_formatting_change before after) (is_case_change before after)
      (is_punctuation_change before after))

/-- The tail of classify_field_change after _detect_cosmetic_changes has
run (lines 63-69 of change_classifier.py): a single detected subkind is
the kind, several make mixed_cosmetic, none falls back to
(html_formatting, ["unknown"]). -/
def cosmetic_result (changes : List String) : String × List String :=
  if changes.length = 1 then (changes.headD "", changes)
  else if 1 < changes.length then (MIXED_COSMETIC, changes)
  else (HTML_FORMATTING, ["unknown"])

/-- ChangeClassifier.classify_field_change. -/
def classify_field_change (before after : String) : String × List String :=
  if before = after then (CONTENT, [])
  else if normalize_for_comparison before = normalize_for_comparison after then
    cosmetic_result (detect_cosmetic_changes before after)
  else (CONTENT, [])

/-- One entry of the per-field breakdown built by classify_note_change
(the dict keyed "field_i" in the source). -/
structure FieldChangeRec where
  idx : Nat
  ctype : String
  details : List String
deriving DecidableEq, Repr

/-- The loop state of classify_note_change. -/
structure NoteClassAcc where
  field_changes : List FieldChangeRec
  cosmetic_types : List String
  has_content : Bool
deriving DecidableEq, Repr

/-- Python set insertion: keep the element if already present, append it
otherwise (membership semantics; the order models insertion order). -/
def insertNew (s : List String) (x : String) : List String :=
  if s.contains x then s else s ++ [x]

/-- cosmetic_types.update(details). -/
def setUpdate (s : List String) (d : List String) : List String :=
  d.foldl insertNew s

/-- One iteration of the classify_note_change loop at index i: positions
past the end of either list read as the empty string, equal values are
skipped, differing values are classified and accumulated. -/
def note_step (bf af : List String) (acc : NoteClassAcc) (i : Nat) : NoteClassAcc :=
  let bv := bf.getD i ""
  let av := af.getD i ""
  if bv = av then acc
  else
    let r := classify_field_change bv av
    { field_changes := acc.field_changes ++ [⟨i, r.1, r.2⟩],
      cosmetic_types := if r.1 = CONTENT then acc.cosmetic_types else setUpdate acc.cosmetic_types r.2,
      has_content := acc.has_content || decide (r.1 = CONTENT) }

/-- The detail record returned by classify_note_change. -/
structure NoteDetail where
  field_changes : List FieldChangeRec
  cosmetic_types : List String
deriving DecidableEq, Repr

/-- classify_note_change (module-level function of change_classifier.py). -/
def classify_note_change (before_fields after_fields : List String) : String × NoteDetail :=
  let maxLen := max before_fields.length after_fields.length
  let acc := (List.range maxLen).foldl (note_step before_fields after_fields) ⟨[], [], false⟩
  let overall :=
    if acc.has_content then CONTENT
    else if acc.cosmetic_types.length = 1 then acc.cosmetic_types.headD ""
    else if 1 < acc.cosmetic_types.length then MIXED_COSMETIC
    else CONTENT
  (overall, ⟨acc.field_changes, acc.cosmetic_types⟩)

/-! Declarative companions of classify_note_change, used to state its
aggregation behaviour. -/

/-- Position i holds differing values (missing positions read as the
empty string). -/
def diffAt (bf af : List String) (i : Nat) : Bool :=
  decide (bf.getD i "" ≠ af.getD i "")

/-- The differing positions among 0..max of the lengths. -/
def diffIndices (bf af : List String) : List Nat :=
  (List.range (max bf.length af.length)).filter (diffAt bf af)

/-- The field-level classification at a position. -/
def fieldResultAt (bf af : List String) (i : Nat) : String × List String :=
  classify_field_change (bf.getD i "") (af.getD i "")

/-- The field at a position classifies as content. -/
def isContentAt (bf af : List String) (i : Nat) : Bool :=
  decide ((fieldResultAt bf af i).1 = CONTENT)

/-- The union (with insertion order) of the cosmetic subkinds over the
differing non-content positions. -/
def unionSubkinds (bf af : List String) : List String :=
  ((diffIndices bf af).filter (fun i => !isContentAt bf af i)).foldl
    (fun s i => setUpdate s (fieldResultAt bf af i).2) []

/-- Pad a field list with empty strings up to a length. -/
def padTo (l : List String) (n : Nat) : List String :=
  l ++ List.replicate (n - l.length) ""

/-! Template engine (src/src/template_engine.py).  The template
micro-syntax delimiters are brace pairs; braces are written via their
code points below. -/

/-- Closing brace character. -/
def rbrace : Char := Char.ofNat 125

/-- The token replaced by the rendered front side. -/
def frontSideTok : List Char := ("\x7b\x7bFrontSide\x7d\x7d").data

/-- The token replaced by the joined tag list. -/
def tagsTok : List Char := ("\x7b\x7bTags\x7d\x7d").data

/-- Opening token of a cloze macro. -/
def clozeOpenTok : List Char := ("\x7b\x7bcloze:").data

/-- Opening token of a negative conditional block. -/
def negOpenTok : List Char := ("\x7b\x7b^").data

/-- Opening token of a positive conditional block. -/
def posOpenTok : List Char := ("\x7b\x7b#").data

/-- A double opening brace. -/
def braceOpenTok : List Char := ("\x7b\x7b").data

/-- A double closing brace. -/
def braces2 : List Char := [Char.ofNat 125, Char.ofNat 125]

/-- Two colons, the cloze separator. -/
def colons2 : List Char := [':', ':']

/-- The closing token of a conditional block for a given raw name (the
backreference in the conditional patterns). -/
def closeTokOf (nm : List Char) : List Char :=
  ("\x7b\x7b/").data ++ nm ++ braces2

/-- Python "tok in s" substring test. -/
def containsTok (tok : List Char) : List Char → Bool
  | [] => tok.isEmpty
  | c :: rest => tok.isPrefixOf (c :: rest) || containsTok tok rest

/-- fields.get(k, ""): first binding of the key, empty string when
absent. -/
def dictGet (d : List (String × String)) (k : String) : String :=
  ((d.find? (fun p => decide (p.1 = k))).map Prod.snd).getD ""

/-- The revealed-cloze span emitted for one cloze marker. -/
def clozeSpan (num text : List Char) : List Char :=
  ("<span class=\"cloze\" data-cloze=\"").data ++ num ++ ("\">").data ++
  text ++ ("</span>").data

/-- Lazy scan of the cloze body, following the pattern
c(digits)::([^brace]+?)(?:::([^brace]+))?(brace brace): the answer text
grows one non-brace character at a time; after each character the
optional hint branch is tried first, then the closing braces.  Returns
the answer text and the input after the closing braces. -/
def clozeBodyScan : Nat → List Char → List Char → Option (List Char × List Char)
  | 0, _, _ => none
  | _ + 1, _, [] => none
  | fuel + 1, acc, c :: rest =>
    if c = rbrace then none
    else
      let acc2 := acc ++ [c]
      if colons2.isPrefixOf rest then
        let afterC := rest.drop 2
        let hint := afterC.takeWhile (fun d => decide (d ≠ rbrace))
        if !hint.isEmpty && braces2.isPrefixOf (afterC.drop hint.length) then
          some (acc2, (afterC.drop hint.length).drop 2)
        else clozeBodyScan fuel acc2 rest
      else if braces2.isPrefixOf rest then some (acc2, rest.drop 2)
      else clozeBodyScan fuel acc2 rest

/-- The inner re.sub of _render_cloze on a field value: every cloze
marker is replaced by a revealed span carrying its ordinal; the optional
hint is dropped. -/
def renderClozeValueAux : Nat → List Char → List Char
  | 0, l => l
  | _ + 1, [] => []
  | fuel + 1, c :: rest =>
    if (("\x7b\x7bc").data).isPrefixOf (c :: rest) then
      let after := (c :: rest).drop 3
      let ds := after.takeWhile Char.isDigit
      if !ds.isEmpty && colons2.isPrefixOf (after.drop ds.length) then
        match clozeBodyScan fuel [] ((after.drop ds.length).drop 2) with
        | some (text, r2) => clozeSpan ds text ++ renderClozeValueAux fuel r2
        | none => c :: renderClozeValueAux fuel rest
      else c :: renderClozeValueAux fuel rest
    else c :: renderClozeValueAux fuel rest

/-- Cloze rendering of one field value. -/
def render_cloze_value (l : List Char) : List Char :=
  renderClozeValueAux l.length l

/-- AnkiTemplateEngine._render_cloze: each cloze macro names a field and
is replaced by the field value with its cloze markers rendered. -/
def renderClozeAux (fields : List (String × String)) : Nat → List Char → List Char
  | 0, l => l
  | _ + 1, [] => []
  | fuel + 1, c :: rest =>
    if clozeOpenTok.isPrefixOf (c :: rest) then
      let after := (c :: rest).drop clozeOpenTok.length
      let nm := after.takeWhile (fun d => decide (d ≠ rbrace))
      if !nm.isEmpty && braces2.isPrefixOf (after.drop nm.length) then
        render_cloze_value (dictGet fields (String.mk nm)).data ++
          renderClozeAux fields fuel ((after.drop nm.length).drop 2)
      else c :: renderClozeAux fields fuel rest
    else c :: renderClozeAux fields fuel rest

/-- Cloze pass over a template. -/
def render_cloze (fields : List (String × String)) (l : List Char) : List Char :=
  renderClozeAux fields l.length l

/-- Split the input at the first occurrence of a token: the part before
and the part after the token. -/
def splitOnTokAux (tok : List Char) : Nat → List Char → Option (List Char × List Char)
  | 0, _ => none
  | _ + 1, [] => none
  | fuel + 1, c :: rest =>
    if tok.isPrefixOf (c :: rest) then some ([], (c :: rest).drop tok.length)
    else
      match splitOnTokAux tok fuel rest with
      | some (pre, post) => some (c :: pre, post)
      | none => none

/-- One conditional pass of _render_conditionals (negative blocks when
neg, positive blocks otherwise): at each opening token the raw name runs
to the first closing brace, the block body is the non-greedy stretch up
to the first matching closing token, and the body is kept or dropped by
the stripped field value of the stripped name. -/
def condPassAux (neg : Bool) (fields : List (String × String)) : Nat → List Char → List Char
  | 0, l => l
  | _ + 1, [] => []
  | fuel + 1, c :: rest =>
    if (if neg then negOpenTok else posOpenTok).isPrefixOf (c :: rest) then
      let after := (c :: rest).drop 3
      let nm := after.takeWhile (fun d => decide (d ≠ rbrace))
      if !nm.isEmpty && braces2.isPrefixOf (after.drop nm.length) then
        match splitOnTokAux (closeTokOf nm) fuel ((after.drop nm.length).drop 2) with
        | some (content, r2) =>
          let v := dictGet fields (String.mk (stripWs nm))
          let blank := (stripWs v.data).isEmpty
          (if (if neg then blank else !blank) then content else []) ++
            condPassAux neg fields fuel r2
        | none => c :: condPassAux neg fields fuel rest
      else c :: condPassAux neg fields fuel rest
    else c :: condPassAux neg fields fuel rest

/-- AnkiTemplateEngine._render_conditionals: the negative pass runs over
the whole template first, then the positive pass over its result. -/
def render_conditionals (fields : List (String × String)) (l : List Char) : List Char :=
  let t := condPassAux true fields l.length l
  condPassAux false fields t.length t

/-- One piece of a compiled re.sub replacement template: a literal
character or a reference to the whole match (group zero). -/
inductive ReplTok where
  | lit (c : Char)
  | whole
deriving DecidableEq, Repr

/-- Octal digit test. -/
def isOctDigit (c : Char) : Bool :=
  decide (48 ≤ c.toNat) && decide (c.toNat ≤ 55)

/-- re replacement-template compilation against a pattern with no
capture groups (the field-substitution patterns): standard character
escapes are decoded, a trailing backslash or an unknown letter escape is
an error, any positive group reference is an error because the pattern
has no groups, and a group-zero reference stands for the whole match. -/
def parseReplAux : Nat → List Char → Except String (List ReplTok)
  | 0, _ => .ok []
  | _ + 1, [] => .ok []
  | fuel + 1, c :: rest =>
    if c = '\\' then
      match rest with
      | [] => .error "bad escape (end of pattern)"
      | d :: r2 =>
        if d = '\\' then (parseReplAux fuel r2).map (fun ts => .lit '\\' :: ts)
        else if d = 'a' then (parseReplAux fuel r2).map (fun ts => .lit (Char.ofNat 7) :: ts)
        else if d = 'b' then (parseReplAux fuel r2).map (fun ts => .lit (Char.ofNat 8) :: ts)
        else if d = 'f' then (parseReplAux fuel r2).map (fun ts => .lit (Char.ofNat 12) :: ts)
        else if d = 'n' then (parseReplAux fuel r2).map (fun ts => .lit (Char.ofNat 10) :: ts)
        else if d = 'r' then (parseReplAux fuel r2).map (fun ts => .lit (Char.ofNat 13) :: ts)
        else if d = 't' then (parseReplAux fuel r2).map (fun ts => .lit (Char.ofNat 9) :: ts)
        else if d = 'v' then (parseReplAux fuel r2).map (fun ts => .lit (Char.ofNat 11) :: ts)
        else if d = '0' then
          let os := (r2.take 2).takeWhile isOctDigit
          (parseReplAux fuel (r2.drop os.length)).map
            (fun ts => .lit (Char.ofNat (os.foldl (fun a o => a * 8 + (o.toNat - 48)) 0)) :: ts)
        else if d.isDigit then .error "invalid group reference"
        else if d = 'g' then
          match r2 with
          | '<' :: r3 =>
            let nm := r3.takeWhile (fun e => decide (e ≠ '>'))
            (match r3.drop nm.length with
             | '>' :: r4 =>
               if nm.isEmpty then .error "missing group name"
               else if nm.all Char.isDigit then
                 if digitsToNat nm = 0 then (parseReplAux fuel r4).map (fun ts => .whole :: ts)
                 else .error "invalid group reference"
               else .error "unknown group name"
             | _ => .error "missing >, unterminated name")
          | _ => .error "missing <"
        else if isAsciiLetter d then .error "bad escape"
        else (parseReplAux fuel r2).map (fun ts => .lit '\\' :: .lit d :: ts)
    else (parseReplAux fuel rest).map (fun ts => .lit c :: ts)

/-- Compile a replacement template. -/
def parseRepl (l : List Char) : Except String (List ReplTok) :=
  parseReplAux l.length l

/-- Expand a compiled replacement for a given whole-match text. -/
def expandToks (ts : List ReplTok) (whole : List Char) : List Char :=
  ts.foldr (fun t acc => match t with | .lit c => c :: acc | .whole => whole ++ acc) []

/-- One re.sub of _render_fields: the pattern is the literal placeholder
of the field name; re.sub treats a replacement without a backslash
literally and compiles it as a template otherwise — a bad template is an
error even when the placeholder does not occur. -/
def subst_field (name value : String) (tpl : List Char) : Except String (List Char) :=
  let pat := braceOpenTok ++ name.data ++ braces2
  if value.data.contains '\\' then
    (parseRepl value.data).map (fun ts => replaceAll pat (expandToks ts pat) tpl)
  else .ok (replaceAll pat value.data tpl)

/-- The negative lookahead of the cleanup pattern: a placeholder body of
the shape c(digits)::image-occlusion survives cleanup. -/
def ioShapeName (nm : List Char) : Bool :=
  match nm with
  | 'c' :: rest =>
    let ds := rest.takeWhile Char.isDigit
    !ds.isEmpty && (("::image-occlusion").data).isPrefixOf (rest.drop ds.length)
  | _ => false

/-- The final cleanup re.sub of _render_fields: every remaining bracketed
placeholder is deleted except image-occlusion shape descriptors, where
the failed lookahead makes the scan move on by one character. -/
def cleanupAux : Nat → List Char → List Char
  | 0, l => l
  | _ + 1, [] => []
  | fuel + 1, c :: rest =>
    if braceOpenTok.isPrefixOf (c :: rest) then
      let after := (c :: rest).drop 2
      let nm := after.takeWhile (fun d => decide (d ≠ rbrace))
      if !nm.isEmpty && braces2.isPrefixOf (after.drop nm.length) then
        if ioShapeName nm then c :: cleanupAux fuel rest
        else cleanupAux fuel ((after.drop nm.length).drop 2)
      else c :: cleanupAux fuel rest
    else c :: cleanupAux fuel rest

/-- The field-substitution loop of _render_fields over the field map in
insertion order; the first failing substitution aborts the pipeline. -/
def renderFieldsGo (fields : List (String × String)) (tpl : List Char) : Except String (List Char) :=
  match fields with
  | [] => .ok tpl
  | (n, v) :: rest =>
    match subst_field n v tpl with
    | .error e => .error e
    | .ok t2 => renderFieldsGo rest t2

/-- AnkiTemplateEngine._render_fields: substitute every field, then clean
up unresolved placeholders. -/
def render_fields (fields : List (String × String)) (tpl : List Char) : Except String (List Char) :=
  (renderFieldsGo fields tpl).map (fun t => cleanupAux t.length t)

/-- AnkiTemplateEngine.render: front-side substitution on the answer
side, tags, cloze macros, conditionals, then field substitution and
cleanup.  The result is an error exactly when a field substitution
raises. -/
def render (template : String) (fields : List (String × String)) (tags : List String)
    (is_answer : Bool) (front_side_html : String) : Except String String :=
  let r0 := template.data
  let r1 :=
    if is_answer && containsTok frontSideTok r0
    then replaceAll frontSideTok front_side_html.data r0 else r0
  let r2 := replaceAll tagsTok (String.intercalate (" ") tags).data r1
  let r3 := render_cloze fields r2
  let r4 := render_conditionals fields r3
  (render_fields fields r4).map String.mk

/-! Data model (src/src/models.py), restricted to the attributes the
classifier, template engine and renderers read. -/

/-- NoteType: Anki model type tag. -/
inductive NoteType where
  | basic
  | cloze
deriving DecidableEq, Repr

/-- FieldModel: one field definition (name and ordinal). -/
structure FieldModel where
  name : String
  ord : Nat
deriving DecidableEq, Repr

/-- Template: one card template of a note model. -/
structure Template where
  name : String
  ord : Nat
  qfmt : String
  afmt : String
deriving DecidableEq, Repr

/-- NoteModel: a note model (card type). -/
structure NoteModel where
  name : String
  type : NoteType
  flds : List FieldModel
  tmpls : List Template
  css : String
deriving DecidableEq, Repr

/-- Note: one flashcard instance. -/
structure Note where
  guid : String
  fields : List String
  tags : List String
deriving DecidableEq, Repr

/-- Python dict assignment d[k] = v: overwrite in place, append when the
key is new (insertion order preserved). -/
def dictSetP (d : List (String × String)) (k v : String) : List (String × String) :=
  if (d.find? (fun p => decide (p.1 = k))).isSome then
    d.map (fun p => if p.1 = k then (k, v) else p)
  else d ++ [(k, v)]

/-- BaseNoteRenderer._build_field_map: field names mapped to the note
value at the field ordinal, out-of-range ordinals mapping to empty. -/
def build_field_map (note : Note) (model : NoteModel) : List (String × String) :=
  model.flds.foldl
    (fun fm fd =>
      dictSetP fm fd.name (if fd.ord < note.fields.length then note.fields.getD fd.ord "" else ""))
    []

/-- The record returned by render_card.  The Python renderers return a
dict; the three keys that only some renderers emit are optional here and
none models an absent key. -/
structure RenderedCard where
  front : String
  back : String
  css : String
  template_name : Option String
  template_index : Option Nat
  total_templates : Option Nat
deriving DecidableEq, Repr

/-- BasicRenderer.render_card: clamp the template index, build the field
map, render front then back (the back receiving the front), and return
front/back/css/template_name. -/
def basic_render_card (note : Note) (model : NoteModel) (template_idx : Nat) :
    Except String RenderedCard :=
  let idx := if template_idx ≥ model.tmpls.length then 0 else template_idx
  match model.tmpls[idx]? with
  | none => .error "list index out of range"
  | some t =>
    let fields := build_field_map note model
    match render t.qfmt fields note.tags false ("") with
    | .error e => .error e
    | .ok front_html =>
      match render t.afmt fields note.tags true front_html with
      | .error e => .error e
      | .ok back_html =>
        .ok { front := front_html, back := back_html, css := model.css,
              template_name := some t.name, template_index := none, total_templates := none }

/-- MultiFieldRenderer.render_card: the Basic computation plus the
template_index and total_templates keys. -/
def multi_field_render_card (note : Note) (model : NoteModel) (template_idx : Nat) :
    Except String RenderedCard :=
  let idx := if template_idx ≥ model.tmpls.length then 0 else template_idx
  match model.tmpls[idx]? with
  | none => .error "list index out of range"
  | some t =>
    let fields := build_field_map note model
    match render t.qfmt fields note.tags false ("") with
    | .error e => .error e
    | .ok front_html =>
      match render t.afmt fields note.tags true front_html with
      | .error e => .error e
      | .ok back_html =>
        .ok { front := front_html, back := back_html, css := model.css,
              template_name := some t.name, template_index := some idx,
              total_templates := some model.tmpls.length }

/-- ClozeRenderer.render_card: as Basic but the returned dict has only
the front, back and css keys. -/
def cloze_render_card (note : Note) (model : NoteModel) (template_idx : Nat) :
    Except String RenderedCard :=
  let idx := if template_idx ≥ model.tmpls.length then 0 else template_idx
  match model.tmpls[idx]? with
  | none => .error "list index out of range"
  | some t =>
    let fields := build_field_map note model
    match render t.qfmt fields note.tags false ("") with
    | .error e => .error e
    | .ok front_html =>
      match render t.afmt fields note.tags true front_html with
      | .error e => .error e
      | .ok back_html =>
        .ok { front := front_html, back := back_html, css := model.css,
              template_name := none, template_index := none, total_templates := none }

/-! Image occlusion renderer (src/src/renderers/image_occlusion_renderer.py). -/

/-- One parsed occlusion shape descriptor. -/
structure OcclusionShape where
  cloze : Nat
  type : String
  params : List (String × String)
deriving DecidableEq, Repr

/-- Python str.split(sep) for a one-character separator. -/
def splitOnCh (sep : Char) : List Char → List (List Char)
  | [] => [[]]
  | c :: rest =>
    let r := splitOnCh sep rest
    if c = sep then [] :: r
    else
      match r with
      | h :: t => (c :: h) :: t
      | [] => [[c]]

/-- The parameter dict of one shape descriptor: split on colons, keep the
pieces containing an equals sign, split each once at the first equals. -/
def paramsOf (ps : List Char) : List (String × String) :=
  (splitOnCh ':' ps).foldl
    (fun d piece =>
      if piece.contains '=' then
        let k := piece.takeWhile (fun c => decide (c ≠ '='))
        let v := (piece.drop k.length).drop 1
        dictSetP d (String.mk k) (String.mk v)
      else d)
    []

/-- The lazy tail (.*?) of the shape pattern without DOTALL: the shortest
stretch of non-newline characters before a double closing brace. -/
def lazyToBraces : Nat → List Char → Option (List Char × List Char)
  | 0, _ => none
  | fuel + 1, l =>
    if braces2.isPrefixOf l then some ([], l.drop 2)
    else
      match l with
      | [] => none
      | c :: rest =>
        if c = Char.ofNat 10 then none
        else
          match lazyToBraces fuel rest with
          | some pr => some (c :: pr.1, pr.2)
          | none => none

/-- The marker between the ordinal and the shape type. -/
def ioMarkerTok : List Char := ("::image-occlusion:").data

/-- ImageOcclusionRenderer._parse_occlusion_shapes: re.finditer of the
shape pattern, each match yielding a cloze ordinal, a shape type (word
characters) and the parsed parameter dict. -/
def parseOccAux : Nat → List Char → List OcclusionShape
  | 0, _ => []
  | _ + 1, [] => []
  | fuel + 1, c :: rest =>
    if (("\x7b\x7bc").data).isPrefixOf (c :: rest) then
      let after := (c :: rest).drop 3
      let ds := after.takeWhile Char.isDigit
      if !ds.isEmpty && ioMarkerTok.isPrefixOf (after.drop ds.length) then
        let after2 := (after.drop ds.length).drop ioMarkerTok.length
        let w := after2.takeWhile isPyWord
        if !w.isEmpty && decide ((after2.drop w.length).head? = some ':') then
          match lazyToBraces fuel ((after2.drop w.length).drop 1) with
          | some (ps, r2) =>
            { cloze := digitsToNat ds, type := String.mk w, params := paramsOf ps } ::
              parseOccAux fuel r2
          | none => parseOccAux fuel rest
        else parseOccAux fuel rest
      else parseOccAux fuel rest
    else parseOccAux fuel rest

/-- Shape parsing of the Occlusion field. -/
def parse_occlusion_shapes (s : String) : List OcclusionShape :=
  parseOccAux s.data.length s.data

/-- Lowercase hexadecimal digit. -/
def hexDigitChar (n : Nat) : Char :=
  if n < 10 then Char.ofNat (48 + n) else Char.ofNat (87 + n)

/-- Four lowercase hexadecimal digits. -/
def hex4 (n : Nat) : List Char :=
  [hexDigitChar (n / 4096 % 16), hexDigitChar (n / 256 % 16),
   hexDigitChar (n / 16 % 16), hexDigitChar (n % 16)]

/-- json.dumps escaping of one character with the default ensure_ascii:
quote, backslash and the named control shortcuts escape, other controls
and every non-ASCII character become unicode escapes (surrogate pairs
beyond the basic plane). -/
def jsonEscapeChar (c : Char) : List Char :=
  let n := c.toNat
  if n = 34 then ['\\', Char.ofNat 34]
  else if c = '\\' then ['\\', '\\']
  else if n = 8 then ['\\', 'b']
  else if n = 9 then ['\\', 't']
  else if n = 10 then ['\\', 'n']
  else if n = 12 then ['\\', 'f']
  else if n = 13 then ['\\', 'r']
  else if n < 32 then '\\' :: 'u' :: hex4 n
  else if n < 127 then [c]
  else if n ≤ 65535 then '\\' :: 'u' :: hex4 n
  else ('\\' :: 'u' :: hex4 (55296 + (n - 65536) / 1024)) ++
       ('\\' :: 'u' :: hex4 (56320 + (n - 65536) % 1024))

/-- json.dumps of a string. -/
def jsonStr (s : String) : String :=
  String.mk (Char.ofNat 34 :: s.data.foldr (fun c acc => jsonEscapeChar c ++ acc) [Char.ofNat 34])

/-- json.dumps of one shape record (insertion-ordered keys). -/
def jsonShape (sh : OcclusionShape) : String :=
  "\x7b\"cloze\": " ++ toString sh.cloze ++ ", \"type\": " ++ jsonStr sh.type ++
  ", \"params\": " ++ "\x7b" ++
  String.intercalate (", ") (sh.params.map (fun p => jsonStr p.1 ++ ": " ++ jsonStr p.2)) ++
  "\x7d" ++ "\x7d"

/-- json.dumps of the shape list. -/
def jsonShapes (shapes : List OcclusionShape) : String :=
  "[" ++ String.intercalate (", ") (shapes.map jsonShape) ++ "]"

/-- json.dumps of the show_answer flag. -/
def show_answer_json (b : Bool) : String :=
  if b then "true" else "false"

/-- ImageOcclusionRenderer._generate_io_script: the canvas-drawing
script of the source with the shape list and flag spliced in. -/
def generate_io_script (shapes : List OcclusionShape) (show_answer : Bool) : String :=
  String.intercalate ("\n")
    ["",
     "(function() \x7b",
     "    const canvas = document.getElementById(\x27image-occlusion-canvas\x27);",
     "    const container = document.getElementById(\x27image-occlusion-container\x27);",
     "",
     "    if (!canvas || !container) \x7b",
     "        console.warn(\x27Image occlusion elements not found\x27);",
     "        return;",
     "    \x7d",
     "",
     "    const img = container.querySelector(\x27img\x27);",
     "",
     "    if (!img) \x7b",
     "        console.warn(\x27Image not found in container\x27);",
     "        return;",
     "    \x7d",
     "",
     "    function drawShapes() \x7b",
     "        canvas.width = img.width || img.naturalWidth;",
     "        canvas.height = img.height || img.naturalHeight;",
     "",
     "        // Position canvas over image",
     "        canvas.style.position = \x27absolute\x27;",
     "        canvas.style.top = \x270\x27;",
     "        canvas.style.left = \x270\x27;",
     "        canvas.style.pointerEvents = \x27none\x27;",
     "",
     "        const ctx = canvas.getContext(\x272d\x27);",
     "",
     "        const shapes = " ++ jsonShapes shapes ++ ";",
     "        const showAnswer = " ++ show_answer_json show_answer ++ ";",
     "",
     "        shapes.forEach(shape => \x7b",
     "            const params = shape.params;",
     "            const x = parseFloat(params.left || 0) * canvas.width;",
     "            const y = parseFloat(params.top || 0) * canvas.height;",
     "            const w = parseFloat(params.width || 0) * canvas.width;",
     "            const h = parseFloat(params.height || 0) * canvas.height;",
     "",
     "            // Different colors for question vs answer",
     "            if (showAnswer) \x7b",
     "                // Answer: semi-transparent red highlight",
     "                ctx.fillStyle = \x27rgba(255, 142, 142, 0.5)\x27;",
     "            \x7d else \x7b",
     "                // Question: solid occlusion (yellow/beige)",
     "                ctx.fillStyle = \x27#ffeba2\x27;",
     "            \x7d",
     "",
     "            ctx.strokeStyle = \x27#212121\x27;",
     "            ctx.lineWidth = 2;",
     "",
     "            if (shape.type === \x27rect\x27) \x7b",
     "                ctx.fillRect(x, y, w, h);",
     "                ctx.strokeRect(x, y, w, h);",
     "            \x7d else if (shape.type === \x27ellipse\x27) \x7b",
     "                ctx.beginPath();",
     "                ctx.ellipse(x + w/2, y + h/2, w/2, h/2, 0, 0, 2 * Math.PI);",
     "                ctx.fill();",
     "                ctx.stroke();",
     "            \x7d",
     "        \x7d);",
     "    \x7d",
     "",
     "    // Make container relative for absolute positioning of canvas",
     "    container.style.position = \x27relative\x27;",
     "    container.style.display = \x27inline-block\x27;",
     "",
     "    // Draw when image loads",
     "    if (img.complete) \x7b",
     "        drawShapes();",
     "    \x7d else \x7b",
     "        img.onload = drawShapes;",
     "    \x7d",
     "\x7d)();",
     ""]

/-- The placeholder call replaced by the generated script. -/
def setupTok : List Char := ("anki.imageOcclusion.setup()").data

/-- A closing script tag. -/
def closeScriptTok : List Char := ("</script>").data

/-- str.replace(pat, repl, 1): first occurrence only. -/
def replaceFirst (pat repl l : List Char) : List Char :=
  match splitOnTokAux pat l.length l with
  | some (pre, post) => pre ++ repl ++ post
  | none => l

/-- ImageOcclusionRenderer._inject_io_script: replace the setup call if
present, else splice before the first closing script tag, else append a
fresh script element. -/
def inject_io_script (html : List Char) (shapes : List OcclusionShape) (show_answer : Bool) :
    List Char :=
  let script := (generate_io_script shapes show_answer).data
  if containsTok setupTok html then replaceAll setupTok script html
  else if containsTok closeScriptTok html then
    replaceFirst closeScriptTok (script ++ ("\n</script>").data) html
  else html ++ ("\n<script>\n").data ++ script ++ ("\n</script>").data

/-- ImageOcclusionRenderer.render_card: parse the Occlusion field, render
both sides, inject the occlusion script into each, and return a dict with
only the front, back and css keys. -/
def image_occlusion_render_card (note : Note) (model : NoteModel) (template_idx : Nat) :
    Except String RenderedCard :=
  let idx := if template_idx ≥ model.tmpls.length then 0 else template_idx
  match model.tmpls[idx]? with
  | none => .error "list index out of range"
  | some t =>
    let fields := build_field_map note model
    let shapes := parse_occlusion_shapes (dictGet fields ("Occlusion"))
    match render t.qfmt fields note.tags false ("") with
    | .error e => .error e
    | .ok front_html =>
      match render t.afmt fields note.tags true front_html with
      | .error e => .error e
      | .ok back_html =>
        .ok { front := String.mk (inject_io_script front_html.data shapes false),
              back := String.mk (inject_io_script back_html.data shapes true),
              css := model.css,
              template_name := none, template_index := none, total_templates := none }

/-! Renderer dispatch (src/src/html_generator.py). -/

/-- ImageOcclusionRenderer.can_render: the lowercased model name contains
both "image" and "occlusion". -/
def image_occlusion_can_render (m : NoteModel) : Bool :=
  containsTok (("image").data) (m.name.data.map pyLower) &&
  containsTok (("occlusion").data) (m.name.data.map pyLower)

/-- ClozeRenderer.can_render. -/
def cloze_can_render (m : NoteModel) : Bool :=
  decide (m.type = NoteType.cloze)

/-- MultiFieldRenderer.can_render: more than three fields or more than
one template, and the Basic type tag. -/
def multi_field_can_render (m : NoteModel) : Bool :=
  (decide (3 < m.flds.length) || decide (1 < m.tmpls.length)) && decide (m.type = NoteType.basic)

/-- BasicRenderer.can_render. -/
def basic_can_render (m : NoteModel) : Bool :=
  decide (m.type = NoteType.basic)

/-- The four renderer variants. -/
inductive RendererKind where
  | imageOcclusion
  | cloze
  | multiField
  | basic
deriving DecidableEq, Repr

/-- The applicability predicate of each variant. -/
def can_render : RendererKind → NoteModel → Bool
  | .imageOcclusion, m => image_occlusion_can_render m
  | .cloze, m => cloze_can_render m
  | .multiField, m => multi_field_can_render m
  | .basic, m => basic_can_render m

/-- HTMLDiffGenerator.renderers: the fixed priority order. -/
def renderers : List RendererKind :=
  [.imageOcclusion, .cloze, .multiField, .basic]

/-- HTMLDiffGenerator._select_renderer: the first variant whose predicate
matches, the last (basic) as fallback. -/
def select_renderer (m : NoteModel) : RendererKind :=
  (renderers.find? (fun r => can_render r m)).getD .basic

/-! Example records used by concrete evaluations. -/

/-- A model named like the image-occlusion add-on but with the Basic type
tag and two fields. -/
def imageOcclusionExampleModel : NoteModel :=
  { name := "Image Occlusion Enhanced", type := NoteType.basic,
    flds := [⟨"Question", 0⟩, ⟨"Answer", 1⟩],
    tmpls := [⟨"IO Card", 0, "Q", "A"⟩], css := "" }

/-- A one-field cloze model with constant templates. -/
def clozeExampleModel : NoteModel :=
  { name := "Cloze", type := NoteType.cloze,
    flds := [⟨"Text", 0⟩],
    tmpls := [⟨"Cloze Card", 0, "Q", "A"⟩], css := "c" }

/-- A note for the cloze example model. -/
def exampleNote : Note :=
  { guid := "g1", fields := ["hello"], tags := [] }

/-- A two-field basic model whose back chains the front. -/
def basicExampleModel : NoteModel :=
  { name := "Basic", type := NoteType.basic,
    flds := [⟨"Front", 0⟩, ⟨"Back", 1⟩],
    tmpls := [⟨"Card 1", 0, "\x7b\x7bFront\x7d\x7d", "\x7b\x7bFrontSide\x7d\x7d - \x7b\x7bBack\x7d\x7d"⟩],
    css := "s" }

/-- A note for the basic example model. -/
def basicExampleNote : Note :=
  { guid := "g2", fields := ["F", "B"], tags := [] }

/-- The record the cloze renderer produces on the cloze example. -/
def clozeExampleCard : RenderedCard :=
  { front := "Q", back := "A", css := "c",
    template_name := none, template_index := none, total_templates := none }

/-- The record the basic renderer produces on the basic example. -/
def basicExampleCard : RenderedCard :=
  { front := "F", back := "F - B", css := "s",
    template_name := some "Card 1", template_index := none, total_templates := none }

/-! Helper lemmas shared by the claim theorems. -/

/-- Symmetry of a decided equality. -/
theorem decideEqComm {α : Type} [DecidableEq α] (x y : α) :
    decide (x = y) = decide (y = x) :=
  decide_eq_decide.mpr eq_comm

/-- Symmetry of a decided disequality. -/
theorem decideNeComm {α : Type} [DecidableEq α] (x y : α) :
    decide (x ≠ y) = decide (y ≠ x) :=
  decide_eq_decide.mpr ne_comm

/-- The whitespace detector is symmetric. -/
theorem is_whitespace_change_comm (a b : String) :
    is_whitespace_change a b = is_whitespace_change b a := by
  unfold is_whitespace_change
  exact decideEqComm _ _

/-- Set equality of token lists is symmetric. -/
theorem setEqB_comm (xs ys : List (List Char)) : setEqB xs ys = setEqB ys xs := by
  unfold setEqB
  exact Bool.and_comm _ _

/-- The entity detector is symmetric. -/
theorem is_entity_change_comm (a b : String) :
    is_entity_change a b = is_entity_change b a := by
  unfold is_entity_change
  rw [setEqB_comm,
    decideEqComm (normalizeL (py_unescape a.data)) (normalizeL (py_unescape b.data))]

/-- The html-formatting detector is symmetric. -/
theorem is_html_formatting_change_comm (a b : String) :
    is_html_formatting_change a b = is_html_formatting_change b a := by
  unfold is_html_formatting_change
  rw [decideEqComm (tag_stripped_text a) (tag_stripped_text b), decideNeComm a b]

/-- The case detector is symmetric. -/
theorem is_case_change_comm (a b : String) :
    is_case_change a b = is_case_change b a := by
  unfold is_case_change
  rw [decideEqComm ((tag_stripped_text a).map pyLower) ((tag_stripped_text b).map pyLower),
    decideNeComm (tag_stripped_text a) (tag_stripped_text b)]

/-- The punctuation detector is symmetric. -/
theorem is_punctuation_change_comm (a b : String) :
    is_punctuation_change a b = is_punctuation_change b a := by
  unfold is_punctuation_change
  rw [decideEqComm ((no_punct_text a).map pyLower) ((no_punct_text b).map pyLower),
    decideNeComm (get_text a) (get_text b)]

/-- The whole detector battery is symmetric. -/
theorem detect_cosmetic_changes_comm (a b : String) :
    detect_cosmetic_changes a b = detect_cosmetic_changes b a := by
  unfold detect_cosmetic_changes
  rw [is_whitespace_change_comm, is_entity_change_comm, is_html_formatting_change_comm,
    is_case_change_comm, is_punctuation_change_comm]

/-- The collected detector list never carries the fallback marker. -/
theorem unknown_not_in_collect (e h c p : Bool) :
    ("unknown" : String) ∉ collect_cosmetic e h c p := by
  cases e <;> cases h <;> cases c <;> cases p <;> decide

/-- The fallback keeps the detector list free of the marker. -/
theorem unknown_not_with_fallback (l : List String) (hl : ("unknown" : String) ∉ l) :
    ("unknown" : String) ∉ with_fallback l := by
  unfold with_fallback
  split
  · decide
  · exact hl

/-- The fallback result is never empty. -/
theorem with_fallback_ne_nil (l : List String) : with_fallback l ≠ [] := by
  unfold with_fallback
  cases l with
  | nil => decide
  | cons x xs => simp

/-- The detector battery never returns an empty list. -/
theorem detect_ne_nil (a b : String) : detect_cosmetic_changes a b ≠ [] := by
  unfold detect_cosmetic_changes
  split
  · decide
  · exact with_fallback_ne_nil _

/-- The detector battery never emits the fallback marker. -/
theorem unknown_not_detected (a b : String) :
    ("unknown" : String) ∉ detect_cosmetic_changes a b := by
  unfold detect_cosmetic_changes
  split
  · decide
  · exact unknown_not_with_fallback _ (unknown_not_in_collect _ _ _ _)

/-! Claim theorems. -/

/-- Claim C1, counterexample: "ab" and "a b" differ only by one inserted
whitespace run — the whitespace-and-entity stripped forms agree — yet
classify_field_change returns (content, []), not (whitespace,
[whitespace]), because the normalized forms differ and the detector
battery never runs. -/
theorem c1_counterexample :
    strip_ws_and_entities ("ab") = strip_ws_and_entities ("a b") ∧
    classify_field_change ("ab") ("a b") = (CONTENT, []) ∧
    classify_field_change ("ab") ("a b") ≠ (WHITESPACE, [WHITESPACE]) := by
  refine ⟨by decide, by decide, by decide⟩

/-- Claim C1, amended: for distinct texts whose whitespace-and-entity
stripped forms agree and whose normalized forms also agree,
classify_field_change returns (whitespace, [whitespace]) with no other
subkind collected — whitespace detection short-circuits every other
detector. -/
theorem c1_whitespace_precedence (a b : String) (hne : a ≠ b)
    (hws : strip_ws_and_entities a = strip_ws_and_entities b)
    (hn : normalize_for_comparison a = normalize_for_comparison b) :
    classify_field_change a b = (WHITESPACE, [WHITESPACE]) := by
  have hwsb : is_whitespace_change a b = true := by
    unfold is_whitespace_change
    exact decide_eq_true hws
  have hd : detect_cosmetic_changes a b = [WHITESPACE] := by
    unfold detect_cosmetic_changes
    rw [hwsb]
    simp
  unfold classify_field_change
  rw [if_neg hne, if_pos hn, hd]
  decide

/-- Claim C1, witness: "Hello World" versus "Hello  World" satisfies all
three hypotheses and classifies as pure whitespace. -/
theorem c1_witness :
    classify_field_change ("Hello World") ("Hello  World") = (WHITESPACE, [WHITESPACE]) :=
  c1_whitespace_precedence ("Hello World") ("Hello  World") (by decide) (by decide) (by decide)

/-- Claim C3, counterexample: on ("café", "caf&eacute;") the entity
detector and the html-formatting detector both fire (the tag-stripped
texts agree because tag stripping decodes character references), so the
result is not (entities, ["entities"]). -/
theorem c3_counterexample :
    classify_field_change ("café") ("caf&eacute;") ≠ (ENTITIES, [ENTITIES]) := by
  decide

/-- Claim C3, amended: classify_field_change("café", "caf&eacute;")
returns (mixed_cosmetic, ["entities", "html_formatting"]). -/
theorem c3_amended :
    classify_field_change ("café") ("caf&eacute;") =
      (MIXED_COSMETIC, [ENTITIES, HTML_FORMATTING]) := by
  decide

/-- Claim C4, counterexample: on ("hello", "Hello") the punctuation
detector fires alongside the case detector (punctuation-free texts agree
ignoring case while the tag-stripped texts differ), so the result is not
(case, ["case"]). -/
theorem c4_counterexample :
    classify_field_change ("hello") ("Hello") ≠ (CASE, [CASE]) := by
  decide

/-- Claim C4, amended: classify_field_change("hello", "Hello") returns
(mixed_cosmetic, ["case", "punctuation"]). -/
theorem c4_amended :
    classify_field_change ("hello") ("Hello") = (MIXED_COSMETIC, [CASE, PUNCTUATION]) := by
  decide

/-- Claim C5: the rendering pipeline is not total — a field value that is
a single backslash is passed to re.sub as a replacement template, whose
compilation raises with "bad escape (end of pattern)". -/
theorem c5_render_backslash_raises :
    render ("\x7b\x7bFront\x7d\x7d") ([("Front", "\\")]) ([]) false ("") =
      Except.error "bad escape (end of pattern)" := by
  rfl

/-- Claim C9: for distinct texts with equal normalized forms the
detector battery returns a non-empty list, and classify_field_change
never produces the unreachable fallback pair (html_formatting,
["unknown"]). -/
theorem c9_fallback_unreachable (a b : String) (hne : a ≠ b)
    (hn : normalize_for_comparison a = normalize_for_comparison b) :
    detect_cosmetic_changes a b ≠ [] ∧
    classify_field_change a b ≠ (HTML_FORMATTING, ["unknown"]) := by
  refine ⟨detect_ne_nil a b, ?_⟩
  unfold classify_field_change
  rw [if_neg hne, if_pos hn]
  unfold cosmetic_result
  split
  · intro hEq
    rw [Prod.mk.injEq] at hEq
    have hmem : ("unknown" : String) ∈ detect_cosmetic_changes a b := by
      rw [hEq.2]
      exact List.mem_singleton_self _
    exact unknown_not_detected a b hmem
  · split
    · intro hEq
      rw [Prod.mk.injEq] at hEq
      exact absurd hEq.1 (by decide)
    · next hlen1 hlen2 =>
      exfalso
      have h0 : (detect_cosmetic_changes a b).length = 0 := by omega
      exact detect_ne_nil a b (List.length_eq_zero.mp h0)

/-- Claim C9, witness: "x" versus "x " differs, normalizes equally, and
avoids both the empty list and the fallback pair. -/
theorem c9_witness :
    detect_cosmetic_changes ("x") ("x ") ≠ [] ∧
    classify_field_change ("x") ("x ") ≠ (HTML_FORMATTING, ["unknown"]) :=
  c9_fallback_unreachable ("x") ("x ") (by decide) (by decide)

/-- Claim C10: classify_field_change is symmetric — every comparison it
makes (raw equality, normalized equality, and each cosmetic detector) is
symmetric in its two arguments. -/
theorem c10_classify_field_change_symm (a b : String) :
    classify_field_change a b = classify_field_change b a := by
  unfold classify_field_change
  by_cases h1 : a = b
  · subst h1
    rfl
  · rw [if_neg h1, if_neg (show ¬b = a from fun h => h1 h.symm)]
    by_cases h2 : normalize_for_comparison a = normalize_for_comparison b
    · rw [if_pos h2,
        if_pos (show normalize_for_comparison b = normalize_for_comparison a from h2.symm),
        detect_cosmetic_changes_comm]
    · rw [if_neg h2,
        if_neg (show ¬normalize_for_comparison b = normalize_for_comparison a from
          fun h => h2 h.symm)]

/-- Claim C6: dispatch follows the fixed priority order image-occlusion,
cloze, multi-field, basic with the first matching predicate winning, and
a Basic two-field model named "Image Occlusion Enhanced" is served by the
image-occlusion variant. -/
theorem c6_dispatch_priority :
    (∀ m : NoteModel, image_occlusion_can_render m = true →
      select_renderer m = RendererKind.imageOcclusion) ∧
    (∀ m : NoteModel, image_occlusion_can_render m = false → cloze_can_render m = true →
      select_renderer m = RendererKind.cloze) ∧
    (∀ m : NoteModel, image_occlusion_can_render m = false → cloze_can_render m = false →
      multi_field_can_render m = true → select_renderer m = RendererKind.multiField) ∧
    (∀ m : NoteModel, image_occlusion_can_render m = false → cloze_can_render m = false →
      multi_field_can_render m = false → select_renderer m = RendererKind.basic) ∧
    select_renderer imageOcclusionExampleModel = RendererKind.imageOcclusion := by
  refine ⟨?_, ?_, ?_, ?_, by decide⟩
  · intro m h1
    simp [select_renderer, renderers, List.find?, can_render, h1]
  · intro m h1 h2
    simp [select_renderer, renderers, List.find?, can_render, h1, h2]
  · intro m h1 h2 h3
    simp [select_renderer, renderers, List.find?, can_render, h1, h2, h3]
  · intro m h1 h2 h3
    cases hb : basic_can_render m <;>
      simp [select_renderer, renderers, List.find?, can_render, h1, h2, h3, hb]

/-- Claim C6, witness: the example model is dispatched to the
image-occlusion variant through the first-match rule. -/
theorem c6_witness :
    select_renderer imageOcclusionExampleModel = RendererKind.imageOcclusion :=
  c6_dispatch_priority.1 imageOcclusionExampleModel (by decide)

/-- Claim C7, counterexample: the cloze renderer succeeds on the cloze
example yet its record carries no template name. -/
theorem c7_counterexample :
    cloze_render_card exampleNote clozeExampleModel 0 = Except.ok clozeExampleCard ∧
    clozeExampleCard.template_name = none := by
  exact ⟨by rfl, rfl⟩

/-- Claim C7, amended: every renderer record carries front, back and the
model css; the basic and multi-field renderers additionally carry the
selected template display name, while the cloze and image-occlusion
renderers leave it out. -/
theorem c7_template_name_presence :
    (∀ (n : Note) (m : NoteModel) (i : Nat) (c : RenderedCard),
        basic_render_card n m i = Except.ok c →
        ∃ t, m.tmpls[if i ≥ m.tmpls.length then 0 else i]? = some t ∧
          c.template_name = some t.name) ∧
    (∀ (n : Note) (m : NoteModel) (i : Nat) (c : RenderedCard),
        multi_field_render_card n m i = Except.ok c →
        ∃ t, m.tmpls[if i ≥ m.tmpls.length then 0 else i]? = some t ∧
          c.template_name = some t.name) ∧
    (∀ (n : Note) (m : NoteModel) (i : Nat) (c : RenderedCard),
        cloze_render_card n m i = Except.ok c → c.template_name = none) ∧
    (∀ (n : Note) (m : NoteModel) (i : Nat) (c : RenderedCard),
        image_occlusion_render_card n m i = Except.ok c → c.template_name = none) := by
  refine ⟨?_, ?_, ?_, ?_⟩
  · intro n m i c h
    cases htm : m.tmpls[if i ≥ m.tmpls.length then 0 else i]? with
    | none => simp [basic_render_card, htm] at h
    | some t =>
      cases hq : render t.qfmt (build_field_map n m) n.tags false ("") with
      | error e => simp [basic_render_card, htm, hq] at h
      | ok front_html =>
        cases ha : render t.afmt (build_field_map n m) n.tags true front_html with
        | error e => simp [basic_render_card, htm, hq, ha] at h
        | ok back_html =>
          simp only [basic_render_card, htm, hq, ha, Except.ok.injEq] at h
          exact ⟨t, rfl, by rw [← h]⟩
  · intro n m i c h
    cases htm : m.tmpls[if i ≥ m.tmpls.length then 0 else i]? with
    | none => simp [multi_field_render_card, htm] at h
    | some t =>
      cases hq : render t.qfmt (build_field_map n m) n.tags false ("") with
      | error e => simp [multi_field_render_card, htm, hq] at h
      | ok front_html =>
        cases ha : render t.afmt (build_field_map n m) n.tags true front_html with
        | error e => simp [multi_field_render_card, htm, hq, ha] at h
        | ok back_html =>
          simp only [multi_field_render_card, htm, hq, ha, Except.ok.injEq] at h
          exact ⟨t, rfl, by rw [← h]⟩
  · intro n m i c h
    cases htm : m.tmpls[if i ≥ m.tmpls.length then 0 else i]? with
    | none => simp [cloze_render_card, htm] at h
    | some t =>
      cases hq : render t.qfmt (build_field_map n m) n.tags false ("") with
      | error e => simp [cloze_render_card, htm, hq] at h
      | ok front_html =>
        cases ha : render t.afmt (build_field_map n m) n.tags true front_html with
        | error e => simp [cloze_render_card, htm, hq, ha] at h
        | ok back_html =>
          simp only [cloze_render_card, htm, hq, ha, Except.ok.injEq] at h
          rw [← h]
  · intro n m i c h
    cases htm : m.tmpls[if i ≥ m.tmpls.length then 0 else i]? with
    | none => simp [image_occlusion_render_card, htm] at h
    | some t =>
      cases hq : render t.qfmt (build_field_map n m) n.tags false ("") with
      | error e => simp [image_occlusion_render_card, htm, hq] at h
      | ok front_html =>
        cases ha : render t.afmt (build_field_map n m) n.tags true front_html with
        | error e => simp [image_occlusion_render_card, htm, hq, ha] at h
        | ok back_html =>
          simp only [image_occlusion_render_card, htm, hq, ha, Except.ok.injEq] at h
          rw [← h]

/-- Claim C7, witness: the amended theorem applied to the cloze and the
basic examples. -/
theorem c7_witness :
    clozeExampleCard.template_name = none ∧
    (∃ t, basicExampleModel.tmpls[if 0 ≥ basicExampleModel.tmpls.length then 0 else 0]? =
        some t ∧ basicExampleCard.template_name = some t.name) :=
  ⟨c7_template_name_presence.2.2.1 exampleNote clozeExampleModel 0 clozeExampleCard (by rfl),
   c7_template_name_presence.1 basicExampleNote basicExampleModel 0 basicExampleCard (by rfl)⟩

/-- Claim C8: the multi-field renderer produces exactly the basic
renderer result with the clamped template index and the template count
added, on every note, model and index. -/
theorem c8_multi_field_refines_basic (n : Note) (m : NoteModel) (i : Nat) :
    multi_field_render_card n m i =
      Except.map
        (fun c =>
          { c with template_index := some (if i ≥ m.tmpls.length then 0 else i),
                   total_templates := some m.tmpls.length })
        (basic_render_card n m i) := by
  cases htm : m.tmpls[if i ≥ m.tmpls.length then 0 else i]? with
  | none => simp [multi_field_render_card, basic_render_card, htm, Except.map]
  | some t =>
    cases hq : render t.qfmt (build_field_map n m) n.tags false ("") with
    | error e => simp [multi_field_render_card, basic_render_card, htm, hq, Except.map]
    | ok front_html =>
      cases ha : render t.afmt (build_field_map n m) n.tags true front_html with
      | error e => simp [multi_field_render_card, basic_render_card, htm, hq, ha, Except.map]
      | ok back_html => simp [multi_field_render_card, basic_render_card, htm, hq, ha, Except.map]

/-- getD of a replicate of empty strings is the empty string. -/
theorem getD_replicate_empty (k i : Nat) :
    (List.replicate k ("" : String)).getD i "" = "" := by
  induction k generalizing i with
  | zero => simp
  | succ k ih =>
    cases i with
    | zero => rfl
    | succ j => simp [List.replicate_succ, ih j]

/-- Padding with empty strings leaves positional reads unchanged. -/
theorem getD_append_replicate (l : List String) (k i : Nat) :
    (l ++ List.replicate k "").getD i "" = l.getD i "" := by
  induction l generalizing i with
  | nil => simp [getD_replicate_empty k i]
  | cons x xs ih =>
    cases i with
    | zero => rfl
    | succ j => simpa using ih j

/-- The classify_note_change loop characterised over an arbitrary index
list: the per-field records of the differing positions are appended, the
cosmetic union folds over the differing non-content positions, and the
content flag is an any over the differing positions. -/
theorem note_fold_spec (bf af : List String) (is : List Nat) (acc : NoteClassAcc) :
    is.foldl (note_step bf af) acc =
      { field_changes := acc.field_changes ++
          (is.filter (diffAt bf af)).map
            (fun i => ⟨i, (fieldResultAt bf af i).1, (fieldResultAt bf af i).2⟩),
        cosmetic_types :=
          ((is.filter (diffAt bf af)).filter (fun i => !isContentAt bf af i)).foldl
            (fun s i => setUpdate s (fieldResultAt bf af i).2) acc.cosmetic_types,
        has_content := acc.has_content ||
          (is.filter (diffAt bf af)).any (fun i => isContentAt bf af i) } := by
  induction is generalizing acc with
  | nil => simp
  | cons j rest ih =>
    rw [List.foldl_cons, ih]
    by_cases hd : bf.getD j "" = af.getD j ""
    · have hdb : diffAt bf af j = false := by
        unfold diffAt
        rw [hd]
        simp
      have hstep : note_step bf af acc j = acc := by
        simp only [note_step]
        rw [if_pos hd]
      rw [hstep, List.filter_cons, hdb]
      simp
    · have hdb : diffAt bf af j = true := by
        unfold diffAt
        exact decide_eq_true hd
      by_cases hc : (classify_field_change (bf.getD j "") (af.getD j "")).1 = CONTENT
      · have hstep : note_step bf af acc j =
            { field_changes := acc.field_changes ++
                [⟨j, (fieldResultAt bf af j).1, (fieldResultAt bf af j).2⟩],
              cosmetic_types := acc.cosmetic_types,
              has_content := true } := by
          simp only [note_step]
          rw [if_neg hd, if_pos hc, decide_eq_true hc, Bool.or_true]
          rfl
        have hcb : isContentAt bf af j = true := by
          unfold isContentAt fieldResultAt
          exact decide_eq_true hc
        rw [hstep, List.filter_cons, hdb]
        simp [hcb, List.append_assoc]
      · have hstep : note_step bf af acc j =
            { field_changes := acc.field_changes ++
                [⟨j, (fieldResultAt bf af j).1, (fieldResultAt bf af j).2⟩],
              cosmetic_types := setUpdate acc.cosmetic_types (fieldResultAt bf af j).2,
              has_content := acc.has_content } := by
          simp only [note_step]
          rw [if_neg hd, if_neg hc, decide_eq_false hc, Bool.or_false]
          rfl
        have hcb : isContentAt bf af j = false := by
          unfold isContentAt fieldResultAt
          exact decide_eq_false hc
        rw [hstep, List.filter_cons, hdb]
        simp [hcb, List.append_assoc]

/-- The loop state classify_note_change computes, in declarative form. -/
theorem note_acc_eq (bf af : List String) :
    (List.range (max bf.length af.length)).foldl (note_step bf af) ⟨[], [], false⟩ =
      { field_changes := (diffIndices bf af).map
          (fun i => ⟨i, (fieldResultAt bf af i).1, (fieldResultAt bf af i).2⟩),
        cosmetic_types := unionSubkinds bf af,
        has_content := (diffIndices bf af).any (fun i => isContentAt bf af i) } := by
  rw [note_fold_spec]
  simp [diffIndices, unionSubkinds]

/-- Claim C2: classify_note_change reads missing positions as empty
strings (padding both sides changes nothing), short-circuits to content
when any differing field classifies as content, returns content with
empty detail when no position differs, and otherwise derives the overall
kind from the union of cosmetic subkinds across the differing fields —
one distinct subkind is that subkind, several are mixed_cosmetic. -/
theorem c2_note_aggregation (bf af : List String) :
    (classify_note_change bf af =
       classify_note_change (padTo bf (max bf.length af.length))
         (padTo af (max bf.length af.length))) ∧
    ((∃ i ∈ diffIndices bf af, (fieldResultAt bf af i).1 = CONTENT) →
       (classify_note_change bf af).1 = CONTENT) ∧
    (diffIndices bf af = [] → classify_note_change bf af = (CONTENT, ⟨[], []⟩)) ∧
    ((∀ i ∈ diffIndices bf af, (fieldResultAt bf af i).1 ≠ CONTENT) →
       (∀ s, unionSubkinds bf af = [s] → (classify_note_change bf af).1 = s) ∧
       (1 < (unionSubkinds bf af).length →
         (classify_note_change bf af).1 = MIXED_COSMETIC)) := by
  refine ⟨?_, ?_, ?_, ?_⟩
  · have h1 : (padTo bf (max bf.length af.length)).length = max bf.length af.length := by
      simp [padTo]
    have h2 : (padTo af (max bf.length af.length)).length = max bf.length af.length := by
      simp [padTo]
    have hstep : note_step (padTo bf (max bf.length af.length))
        (padTo af (max bf.length af.length)) = note_step bf af := by
      funext acc i
      simp only [note_step, padTo, getD_append_replicate]
    simp only [classify_note_change]
    rw [h1, h2, Nat.max_self, hstep]
  · intro hex
    obtain ⟨i, hi, hct⟩ := hex
    have h1 : (diffIndices bf af).any (fun j => isContentAt bf af j) = true :=
      List.any_eq_true.mpr ⟨i, hi, by simp [isContentAt, hct]⟩
    simp only [classify_note_change]
    rw [note_acc_eq]
    simp [h1]
  · intro hdi
    have hu : unionSubkinds bf af = [] := by simp [unionSubkinds, hdi]
    simp only [classify_note_change]
    rw [note_acc_eq]
    simp [hdi, hu]
  · intro hall
    have h0 : (diffIndices bf af).any (fun j => isContentAt bf af j) = false := by
      rw [List.any_eq_false]
      intro i hi
      simpa [isContentAt] using hall i hi
    constructor
    · intro s hs
      simp only [classify_note_change]
      rw [note_acc_eq]
      simp [h0, hs]
    · intro hlen
      have hne1 : ¬(unionSubkinds bf af).length = 1 := by omega
      simp only [classify_note_change]
      rw [note_acc_eq]
      simp [h0, hne1, hlen]

/-- Claim C2, witness: a note with one content field goes to content, and
a note with a single whitespace-only differing field goes to whitespace. -/
theorem c2_witness :
    (classify_note_change (["Hello", "X"]) (["World", "X"])).1 = CONTENT ∧
    (classify_note_change (["a"]) (["a "])).1 = WHITESPACE :=
  ⟨(c2_note_aggregation (["Hello", "X"]) (["World", "X"])).2.1 ⟨0, by decide, by decide⟩,
   ((c2_note_aggregation (["a"]) (["a "])).2.2.2 (by decide)).1 WHITESPACE (by decide)⟩

end CrowdAnkiDiff
